import Mathlib

/-!
# HIT Ticket Management System — verification of the lifecycle/assignment engine

Shallow embedding of the ticket lifecycle and workforce-assignment engine of the
HIT-Ticket-Management-System repository (an Express/Sequelize REST API).

Statuses, priorities, roles and decisions are strings in the source
(TypeScript), so they are modelled as `String` here.  Timestamps are modelled
as `Int`, counting milliseconds since the Unix epoch, matching JavaScript
`Date` semantics (`new Date(n)` for a number `n` is the instant `n`
milliseconds after the epoch, and `d.setHours(d.getHours() + k)` adds
`k * 3600000` milliseconds).

Each route handler is embedded as a function on an explicit per-ticket state
(`TicketState`), with request-level failures (`res.status(4xx)` responses)
returned as `Except.error` carrying the response message.  The database rows
belonging to one ticket (its assignment records, approval records and history
rows) are carried in the state; collaborator lookups that the handlers perform
(`User.findByPk`, `Factory.findByPk`, the workload `Ticket.count`) are passed
in as parameters.
-/

namespace HIT

/-- The `tickets` row fields used by the lifecycle/assignment engine
(src/api/models/Notification.ts, `TicketAttributes`). -/
structure Ticket where
  id : String
  status : String
  priority : String
  urgency_level : Int
  sla_deadline : Option Int
  assigned_to : Option String
  approved_at : Option Int
  created_at : Int
  requester_id : String
  factory_id : String
  deriving Repr, DecidableEq

/-- A `ticket_history` row (src/api/models/TicketHistory.ts). -/
structure HistoryEntry where
  action : String
  old_value : Option String
  new_value : Option String
  field_name : Option String
  comment : Option String
  deriving Repr, DecidableEq

/-- A `ticket_approvals` row (src/api/models/TicketApproval.ts). -/
structure ApprovalRec where
  admin_id : String
  decision : String
  reason : Option String
  decided_at : Int
  deriving Repr, DecidableEq

/-- A `ticket_assignments` row (src/unnamed/part_003, `TicketAssignmentAttributes`). -/
structure AssignmentRec where
  assigned_to : String
  assigned_by : String
  assignment_reason : Option String
  is_active : Bool
  deriving Repr, DecidableEq

/-- All persisted rows belonging to one ticket: the ticket itself plus its
assignment ledger, approval records and audit history, in insertion order. -/
structure TicketState where
  ticket : Ticket
  assignments : List AssignmentRec
  approvals : List ApprovalRec
  history : List HistoryEntry
  deriving Repr, DecidableEq

/-- `calculateSLADeadline` (src/unnamed/part_004 lines 388-409): a switch on
the priority string adding a fixed number of hours to `createdAt`.  The second
argument is the millisecond value of whatever was passed as `createdAt`
(JavaScript coerces a number `n` to the instant `n` ms after the epoch). -/
def calculateSLADeadline (priority : String) (createdAt : Int) : Int :=
  if priority = "critical" then createdAt + 2 * 3600000
  else if priority = "high" then createdAt + 8 * 3600000
  else if priority = "medium" then createdAt + 24 * 3600000
  else if priority = "low" then createdAt + 72 * 3600000
  else createdAt + 24 * 3600000

/-- `VALID_STATUS_TRANSITIONS` (src/unnamed/part_005 lines 38-46), the JS
object mapping each current status to the list of statuses reachable from
it. -/
def VALID_STATUS_TRANSITIONS : List (String × List String) :=
  [("pending", ["admin_review"]),
   ("admin_review", ["approved", "rejected"]),
   ("approved", ["in_progress"]),
   ("rejected", []),
   ("in_progress", ["completed"]),
   ("completed", ["closed"]),
   ("closed", [])]

/-- `isValidStatusTransition` (src/unnamed/part_005 lines 49-52): looks the
current status up in the table and checks membership of the new status;
an unknown current status yields `false`. -/
def isValidStatusTransition (currentStatus newStatus : String) : Bool :=
  match VALID_STATUS_TRANSITIONS.lookup currentStatus with
  | some validTransitions => validTransitions.contains newStatus
  | none => false

/-- `Ticket.isCompleted` (src/api/models/Notification.ts). -/
def Ticket.isCompleted (t : Ticket) : Bool := t.status = "completed"

/-- `Ticket.isClosed` (src/api/models/Notification.ts). -/
def Ticket.isClosed (t : Ticket) : Bool := t.status = "closed"

/-- `Ticket.isOverdue` (src/api/models/Notification.ts lines 209-214):
false when `sla_deadline` is unset or the ticket is completed or closed,
otherwise compares the current time against the deadline. -/
def Ticket.isOverdue (t : Ticket) (now : Int) : Bool :=
  if t.sla_deadline.isNone || t.isCompleted || t.isClosed then false
  else match t.sla_deadline with
       | some d => decide (d < now)
       | none => false

/-- `maxWorkload` (src/unnamed/part_007 line 166), the self-assignment
workload cap. -/
def maxWorkload : Nat := 10

/-- `router.post('/')` of src/unnamed/part_005 lines 386-481 (ticket
creation), restricted to its state effect.  `factoryExists` stands for the
`Factory.findByPk(factory_id)` lookup; `now` is the creation instant used for
`created_at`.  Note that the handler passes `urgency_level` — not a
timestamp — as the second argument of `calculateSLADeadline` (line 410). -/
def createTicket (title description priority factory_id : String)
    (urgency_level : Int) (factoryExists : Bool) (requester_id : String)
    (now : Int) : Except String TicketState :=
  if title = "" || description = "" || factory_id = "" then
    .error "Title, description, and factory are required"
  else if !factoryExists then
    .error "Factory"
  else
    .ok { ticket := { id := "new"
                    , status := "pending"
                    , priority := priority
                    , urgency_level := urgency_level
                    , sla_deadline := some (calculateSLADeadline priority urgency_level)
                    , assigned_to := none
                    , approved_at := none
                    , created_at := now
                    , requester_id := requester_id
                    , factory_id := factory_id }
        , assignments := []
        , approvals := []
        , history := [{ action := "created"
                      , old_value := none
                      , new_value := some "pending"
                      , field_name := some "status"
                      , comment := some "Ticket created" }] }

/-- `router.put('/:id/status')` of src/unnamed/part_005 lines 484-576, given
that the ticket was found and the access check passed.  The handler first runs
`await ticket.update({ status })`, which mutates the instance, and only then
reads `ticket.status` as the history entry's `old_value` — so the recorded
`old_value` is the post-update status. -/
def updateTicketStatus (st : TicketState) (status : String)
    (comment : Option String) : Except String TicketState :=
  if status = "" then .error "Status is required"
  else if !isValidStatusTransition st.ticket.status status then
    .error ("Invalid status transition from " ++ st.ticket.status ++ " to " ++ status)
  else
    let ticket := { st.ticket with status := status }
    let entry : HistoryEntry :=
      { action := "status_changed"
      , old_value := some ticket.status
      , new_value := some status
      , field_name := some "status"
      , comment := comment }
    .ok { st with ticket := ticket, history := st.history ++ [entry] }

/-- `router.post('/:id/approve')` of src/unnamed/part_005 lines 579-651, given
that the ticket was found.  `admin_id` is the authenticated admin, `now` the
`new Date()` used for `decided_at`.  The handler updates only `status` on the
ticket and appends a fresh `TicketApproval` row; `approved_at` is not
touched. -/
def approveTicket (st : TicketState) (admin_id decision : String)
    (reason : Option String) (now : Int) : Except String TicketState :=
  if !(decision = "approved" || decision = "rejected") then
    .error "Valid decision (approved/rejected) is required"
  else if st.ticket.status ≠ "admin_review" then
    .error "Ticket is not in admin review status"
  else
    let ticket := { st.ticket with status := decision }
    let approval : ApprovalRec :=
      { admin_id := admin_id, decision := decision, reason := reason, decided_at := now }
    let entry : HistoryEntry :=
      { action := if decision = "approved" then "approved" else "rejected"
      , old_value := some "admin_review"
      , new_value := some decision
      , field_name := some "status"
      , comment := reason }
    .ok { st with ticket := ticket,
                  approvals := st.approvals ++ [approval],
                  history := st.history ++ [entry] }

/-- The `TicketAssignment.update({ is_active: false }, { where: { ticket_id,
is_active: true } })` bulk update used by the assign/reassign/unassign
handlers: every active record of the ticket is deactivated. -/
def deactivateActive (rs : List AssignmentRec) : List AssignmentRec :=
  rs.map (fun r => if r.is_active then { r with is_active := false } else r)

/-- `router.post('/:id/assign')` of src/unnamed/part_005 lines 654-744, given
that the ticket was found.  `assigneeRole` is the role of the
`User.findByPk(assigned_to)` result (`none` when the user does not exist).
The handler updates the ticket before writing history, so the entry's
`old_value` reads `ticket.assigned_to` after the update. -/
def assignTicket (st : TicketState) (actor_id assigned_to : String)
    (assigneeRole : Option String) (notes : Option String) :
    Except String TicketState :=
  if assigned_to = "" then .error "Assigned user ID is required"
  else if st.ticket.status ≠ "approved" then
    .error "Only approved tickets can be assigned"
  else if !(assigneeRole = some "support_staff" || assigneeRole = some "manager") then
    .error "Invalid user or user does not have support permissions"
  else
    let assignments := deactivateActive st.assignments ++
      [{ assigned_to := assigned_to, assigned_by := actor_id
       , assignment_reason := notes, is_active := true }]
    let ticket := { st.ticket with assigned_to := some assigned_to,
                                    status := "in_progress" }
    let entry : HistoryEntry :=
      { action := "assigned"
      , old_value := ticket.assigned_to
      , new_value := some assigned_to
      , field_name := some "assigned_to"
      , comment := notes }
    .ok { st with ticket := ticket, assignments := assignments,
                  history := st.history ++ [entry] }

/-- `router.post('/self-assign/:ticketId')` of src/unnamed/part_007 lines
122-221, given that the ticket was found.  `currentWorkload` is the
`Ticket.count` of the user's tickets with status in
{in_progress, approved}.  No previous record is deactivated (the handler
requires the ticket to be unassigned). -/
def selfAssignTicket (st : TicketState) (user_id userRole userFactory : String)
    (currentWorkload : Nat) (notes : Option String) :
    Except String TicketState :=
  if st.ticket.status ≠ "approved" then
    .error "Only approved tickets can be self-assigned"
  else if st.ticket.assigned_to ≠ none then
    .error "Ticket is already assigned"
  else if userRole = "support_staff" && st.ticket.factory_id ≠ userFactory then
    .error "You can only assign tickets from your factory"
  else if maxWorkload ≤ currentWorkload then
    .error "You have reached the maximum workload limit (10 active tickets)"
  else
    let assignments := st.assignments ++
      [{ assigned_to := user_id, assigned_by := user_id
       , assignment_reason := some (notes.getD "Self-assigned"), is_active := true }]
    let ticket := { st.ticket with assigned_to := some user_id,
                                    status := "in_progress" }
    let entry : HistoryEntry :=
      { action := "assigned"
      , old_value := none
      , new_value := some user_id
      , field_name := some "assigned_to"
      , comment := some (notes.getD "Self-assigned") }
    .ok { st with ticket := ticket, assignments := assignments,
                  history := st.history ++ [entry] }

/-- `router.post('/reassign/:ticketId')` of src/unnamed/part_007 lines
224-322, given that the ticket was found.  `newRole` is the role of the
`User.findByPk(assigned_to)` result.  The handler captures `oldAssignedTo`
before updating the ticket, so here the history `old_value` is the true prior
assignee.  Ticket status is left unchanged. -/
def reassignTicket (st : TicketState) (actor_id assigned_to : String)
    (newRole : Option String) (reason : Option String) :
    Except String TicketState :=
  if assigned_to = "" then .error "Assigned user ID is required"
  else if st.ticket.assigned_to = none then
    .error "Ticket is not currently assigned"
  else if !(newRole = some "support_staff" || newRole = some "manager") then
    .error "Invalid user or user does not have support permissions"
  else
    let oldAssignedTo := st.ticket.assigned_to
    let assignments := deactivateActive st.assignments ++
      [{ assigned_to := assigned_to, assigned_by := actor_id
       , assignment_reason := reason, is_active := true }]
    let ticket := { st.ticket with assigned_to := some assigned_to }
    let entry : HistoryEntry :=
      { action := "assigned"
      , old_value := oldAssignedTo
      , new_value := some assigned_to
      , field_name := some "assigned_to"
      , comment := reason }
    .ok { st with ticket := ticket, assignments := assignments,
                  history := st.history ++ [entry] }

/-- `router.post('/unassign/:ticketId')` of src/unnamed/part_007 lines
325-391, given that the ticket was found.  Deactivates the active record,
clears `assigned_to` and reverts the status to `approved`. -/
def unassignTicket (st : TicketState) (reason : Option String) :
    Except String TicketState :=
  if st.ticket.assigned_to = none then
    .error "Ticket is not currently assigned"
  else
    let oldAssignedTo := st.ticket.assigned_to
    let assignments := deactivateActive st.assignments
    let ticket := { st.ticket with assigned_to := none, status := "approved" }
    let entry : HistoryEntry :=
      { action := "assigned"
      , old_value := oldAssignedTo
      , new_value := none
      , field_name := some "assigned_to"
      , comment := reason }
    .ok { st with ticket := ticket, assignments := assignments,
                  history := st.history ++ [entry] }

/-- The state effect on one selected ticket of an iteration of the
auto-assign loop (src/unnamed/part_007 lines 587-639): the selection filter of
the `Ticket.findAll` (status `approved`, `assigned_to` null) as precondition,
then a fresh active assignment record, ticket update to `in_progress`, and a
history row with `old_value: null`. -/
def autoAssignTicketStep (st : TicketState) (staff_id actor_id : String) :
    Except String TicketState :=
  if st.ticket.status ≠ "approved" || st.ticket.assigned_to ≠ none then
    .error "not selected"
  else
    let assignments := st.assignments ++
      [{ assigned_to := staff_id, assigned_by := actor_id
       , assignment_reason := some "Auto-assigned based on workload balancing"
       , is_active := true }]
    let ticket := { st.ticket with assigned_to := some staff_id,
                                    status := "in_progress" }
    let entry : HistoryEntry :=
      { action := "assigned"
      , old_value := none
      , new_value := some staff_id
      , field_name := some "assigned_to"
      , comment := some "Auto-assigned based on workload balancing" }
    .ok { st with ticket := ticket, assignments := assignments,
                  history := st.history ++ [entry] }

/-- `staffWorkload[staffIndex % staffWorkload.length].activeCount++`
(src/unnamed/part_007 line 633): increments the in-memory load counter at one
position of the staff-workload list. -/
def bumpAt : List (String × Nat) → Nat → List (String × Nat)
  | [], _ => []
  | p :: rest, 0 => (p.1, p.2 + 1) :: rest
  | p :: rest, j + 1 => p :: bumpAt rest j

/-- The allocation loop of `router.post('/auto-assign')` (src/unnamed/part_007
lines 583-639): each ticket in turn is allocated to
`staffWorkload[staffIndex % staffWorkload.length]`, that member's counter is
incremented, and `staffIndex` advances.  The per-ticket database writes of an
iteration are `autoAssignTicketStep`; this function returns the allocation
pairs the loop pushes onto `assignments`. -/
def autoAssignGo : List Ticket → List (String × Nat) → Nat → List (Ticket × String)
  | [], _, _ => []
  | t :: ts, staffWorkload, staffIndex =>
    match staffWorkload[staffIndex % staffWorkload.length]? with
    | none => []
    | some p => (t, p.1) :: autoAssignGo ts (bumpAt staffWorkload (staffIndex % staffWorkload.length)) (staffIndex + 1)

/-- The `staffWorkload.sort((a, b) => a.activeCount - b.activeCount)` step
(src/unnamed/part_007 line 581): stable sort ascending by the load counter. -/
def sortByLoad (staff : List (String × Nat)) : List (String × Nat) :=
  staff.insertionSort (fun a b => a.2 ≤ b.2)

/-- `router.post('/auto-assign')` of src/unnamed/part_007 lines 521-654.
`tickets` is the factory's ticket table in the query order (priority
descending, creation time ascending); `staff` is the eligible staff of the
factory (role in {support_staff, manager}, active) paired with each member's
current active-ticket count (`Ticket.count` per member).  Returns the
allocation pairs of the batch. -/
def autoAssignTickets (tickets : List Ticket) (staff : List (String × Nat))
    (factory_id : String) (max_assignments : Nat) :
    Except String (List (Ticket × String)) :=
  if factory_id = "" then .error "Factory ID is required"
  else
    let unassignedTickets :=
      (tickets.filter (fun t =>
        t.factory_id = factory_id && t.status = "approved" && t.assigned_to = none)).take
        max_assignments
    if unassignedTickets.isEmpty then .ok []
    else if staff.isEmpty then
      .error "No available support staff found for this factory"
    else .ok (autoAssignGo unassignedTickets (sortByLoad staff) 0)

/-- The number of tickets a given staff member receives in a batch of
allocations. -/
def countAlloc (s : String) (allocs : List (Ticket × String)) : Nat :=
  (allocs.filter (fun p => p.2 = s)).length

/-! ## Sequential operation machine

One ticket's lifecycle under the state-changing handlers.  Each constructor
carries the request data plus the collaborator lookups the handler performs
(assignee role from `User.findByPk`, the fresh workload count, the clock). -/

/-- One invocation of a state-changing handler on a single ticket. -/
inductive TicketOp where
  | updateStatus (status : String) (comment : Option String)
  | approve (admin_id decision : String) (reason : Option String) (now : Int)
  | assign (actor_id assigned_to : String) (assigneeRole : Option String) (notes : Option String)
  | selfAssign (user_id userRole userFactory : String) (currentWorkload : Nat) (notes : Option String)
  | reassign (actor_id assigned_to : String) (newRole : Option String) (reason : Option String)
  | unassign (reason : Option String)
  | autoAssignTicket (staff_id actor_id : String)
  deriving Repr, DecidableEq

/-- Dispatch one operation to the corresponding handler embedding. -/
def applyOp (st : TicketState) : TicketOp → Except String TicketState
  | .updateStatus status comment => updateTicketStatus st status comment
  | .approve admin_id decision reason now => approveTicket st admin_id decision reason now
  | .assign actor_id assigned_to role notes => assignTicket st actor_id assigned_to role notes
  | .selfAssign user_id role fac w notes => selfAssignTicket st user_id role fac w notes
  | .reassign actor_id assigned_to role reason => reassignTicket st actor_id assigned_to role reason
  | .unassign reason => unassignTicket st reason
  | .autoAssignTicket staff_id actor_id => autoAssignTicketStep st staff_id actor_id

/-- A rejected request leaves the stored state untouched (the handler returns
a 4xx response before any write). -/
def step (st : TicketState) (op : TicketOp) : TicketState :=
  match applyOp st op with
  | .ok st' => st'
  | .error _ => st

/-- Run a sequence of requests against one ticket. -/
def runOps (st : TicketState) (ops : List TicketOp) : TicketState :=
  ops.foldl step st

/-- The ticket's assignment records with `is_active = true`. -/
def activeAssignments (st : TicketState) : List AssignmentRec :=
  st.assignments.filter (fun r => r.is_active)

/-- The single-active-assignment invariant: at most one active record, and
`ticket.assigned_to` agrees with it (or is null when there is none). -/
def assignInv (st : TicketState) : Prop :=
  match activeAssignments st with
  | [] => st.ticket.assigned_to = none
  | [r] => st.ticket.assigned_to = some r.assigned_to
  | _ :: _ :: _ => False

/-- The approval-ledger invariant: at most one approval row, and none while
the ticket has not yet left review (`pending`/`admin_review`). -/
def approvalInv (st : TicketState) : Prop :=
  st.approvals.length ≤ 1 ∧
    ((st.ticket.status = "pending" ∨ st.ticket.status = "admin_review") →
      st.approvals = [])

/-- A sample ticket used for concrete evaluations. -/
def sampleTicket (status : String) : Ticket :=
  { id := "T1", status := status, priority := "critical", urgency_level := 3
  , sla_deadline := some 0, assigned_to := none, approved_at := none
  , created_at := 0, requester_id := "u0", factory_id := "F1" }

/-- A sample per-ticket state with empty ledgers. -/
def sampleState (status : String) : TicketState :=
  { ticket := sampleTicket status, assignments := [], approvals := [], history := [] }

/-! ## Proof devices

Derived descriptions of the round-robin allocation sequence and a concrete
created state, used by the theorems below. -/

/-- Round-robin allocation over a fixed id list (the projection of
`autoAssignGo` onto the ids it reads). -/
def rrAlloc (ids : List String) : List Ticket → Nat → List (Ticket × String)
  | [], _ => []
  | t :: ts, i =>
    match ids[i % ids.length]? with
    | none => []
    | some sid => (t, sid) :: rrAlloc ids ts (i + 1)

/-- Number of hits of one staff member in `n` round-robin slots starting at
slot `i`. -/
def rrCount (ids : List String) (sid : String) : Nat → Nat → Nat
  | 0, _ => 0
  | n + 1, i =>
    (if ids[i % ids.length]? = some sid then 1 else 0) + rrCount ids sid n (i + 1)

/-- Slots until the round robin next visits index `j`, when it currently
stands at index `a` of `L` staff. -/
def distTo (j a L : Nat) : Nat := if a ≤ j then j - a else j + L - a

/-- The state `createTicket "Press" "desc" "critical" "F1" 3 true "u1" 0`
produces, used as a concrete starting point. -/
def createdSample : TicketState :=
  { ticket := { id := "new"
              , status := "pending"
              , priority := "critical"
              , urgency_level := 3
              , sla_deadline := some 7200003
              , assigned_to := none
              , approved_at := none
              , created_at := 0
              , requester_id := "u1"
              , factory_id := "F1" }
  , assignments := []
  , approvals := []
  , history := [{ action := "created"
                , old_value := none
                , new_value := some "pending"
                , field_name := some "status"
                , comment := some "Ticket created" }] }

/-! ## Theorems -/

/-- Claim C9: `calculateSLADeadline` is a pure function of (priority,
createdAt) adding exactly 2h for critical, 8h for high, 24h for medium, 72h
for low, and the 24h medium offset for any other priority string. -/
theorem calculateSLADeadline_offsets (priority : String) (createdAt : Int) :
    (priority = "critical" → calculateSLADeadline priority createdAt = createdAt + 2 * 3600000) ∧
    (priority = "high" → calculateSLADeadline priority createdAt = createdAt + 8 * 3600000) ∧
    (priority = "medium" → calculateSLADeadline priority createdAt = createdAt + 24 * 3600000) ∧
    (priority = "low" → calculateSLADeadline priority createdAt = createdAt + 72 * 3600000) ∧
    (priority ≠ "critical" → priority ≠ "high" → priority ≠ "medium" → priority ≠ "low" →
      calculateSLADeadline priority createdAt = createdAt + 24 * 3600000) := by
  unfold calculateSLADeadline
  refine ⟨?_, ?_, ?_, ?_, ?_⟩
  · intro h; subst h; rfl
  · intro h; subst h; rfl
  · intro h; subst h; rfl
  · intro h; subst h; rfl
  · intro h1 h2 h3 h4; simp [h1, h2, h3, h4]

/-- Witness for C9 at concrete inputs. -/
theorem calculateSLADeadline_offsets_witness :
    calculateSLADeadline "critical" 0 = 0 + 2 * 3600000 ∧
    calculateSLADeadline "urgent" 5 = 5 + 24 * 3600000 :=
  ⟨(calculateSLADeadline_offsets "critical" 0).1 rfl,
   (calculateSLADeadline_offsets "urgent" 5).2.2.2.2 (by decide) (by decide) (by decide) (by decide)⟩

/-- Claim C3: the create handler computes the SLA deadline from
`urgency_level` instead of the creation time: creating a critical ticket at
T0 = 1700000000000 ms with the default `urgency_level = 3` stores
`sla_deadline = 3 + 2h` (milliseconds after the epoch), not `T0 + 2h`, while
`status` is `pending` as claimed. -/
theorem createTicket_sla_from_urgency :
    createTicket "Press down" "Line 3 press is down" "critical" "F1" 3 true "u1"
        1700000000000 = .ok
      { ticket := { id := "new"
                  , status := "pending"
                  , priority := "critical"
                  , urgency_level := 3
                  , sla_deadline := some 7200003
                  , assigned_to := none
                  , approved_at := none
                  , created_at := 1700000000000
                  , requester_id := "u1"
                  , factory_id := "F1" }
      , assignments := []
      , approvals := []
      , history := [{ action := "created"
                    , old_value := none
                    , new_value := some "pending"
                    , field_name := some "status"
                    , comment := some "Ticket created" }] } ∧
    some (7200003 : Int) ≠ some (1700000000000 + 2 * 3600000 : Int) :=
  ⟨rfl, by decide⟩

/-- Claim C6 counterexample: a rejected ticket with an expired deadline is
reported overdue — `Ticket.isOverdue` only screens out completed and closed
statuses. -/
theorem isOverdue_rejected_counterexample :
    (sampleTicket "rejected").status = "rejected" ∧
    (sampleTicket "rejected").sla_deadline = some 0 ∧
    (sampleTicket "rejected").isOverdue 1 = true :=
  ⟨rfl, rfl, rfl⟩

/-- Claim C6 (amended): `isOverdue` is false for completed and closed tickets
and for tickets without a deadline; for every other status — including
rejected — it is true exactly when the current time is past the deadline. -/
theorem isOverdue_spec (t : Ticket) (now : Int) :
    (t.status = "completed" ∨ t.status = "closed" → t.isOverdue now = false) ∧
    (t.sla_deadline = none → t.isOverdue now = false) ∧
    (∀ d, t.sla_deadline = some d → t.status ≠ "completed" → t.status ≠ "closed" →
      (t.isOverdue now = true ↔ d < now)) := by
  unfold Ticket.isOverdue Ticket.isCompleted Ticket.isClosed
  refine ⟨?_, ?_, ?_⟩
  · rintro (h | h) <;> simp [h]
  · intro h; simp [h]
  · intro d hd hc hcl
    simp [hd, hc, hcl]

/-- Witness for C6's amended theorem at concrete inputs. -/
theorem isOverdue_spec_witness :
    (sampleTicket "completed").isOverdue 1 = false ∧
    (sampleTicket "in_progress").isOverdue 1 = true :=
  ⟨(isOverdue_spec (sampleTicket "completed") 1).1 (Or.inl rfl),
   ((isOverdue_spec (sampleTicket "in_progress") 1).2.2 0 rfl (by decide) (by decide)).mpr
     (by decide)⟩

/-- Claim C5 counterexample: deciding `approved` on a ticket in admin_review
succeeds but leaves `approved_at` unset — the handler updates only `status`
and never stamps `approved_at`. -/
theorem approve_no_approved_at_stamp :
    approveTicket (sampleState "admin_review") "admin1" "approved" none 99 = .ok
      { ticket := { sampleTicket "admin_review" with status := "approved" }
      , assignments := []
      , approvals := [{ admin_id := "admin1"
                      , decision := "approved"
                      , reason := none
                      , decided_at := 99 }]
      , history := [{ action := "approved"
                    , old_value := some "admin_review"
                    , new_value := some "approved"
                    , field_name := some "status"
                    , comment := none }] } ∧
    ({ sampleTicket "admin_review" with status := "approved" } : Ticket).approved_at = none :=
  ⟨rfl, rfl⟩

/-- Claim C5 (amended): decide fails with the invalid-state response unless
the ticket is in admin_review; on success it sets the status to the decision,
appends the ApprovalRecord with `decided_at = now`, appends the
approved/rejected audit entry, and leaves `approved_at` unchanged. -/
theorem approve_decide_spec (st : TicketState) (admin_id d : String)
    (reason : Option String) (now : Int) (hd : d = "approved" ∨ d = "rejected") :
    (st.ticket.status ≠ "admin_review" →
      approveTicket st admin_id d reason now = .error "Ticket is not in admin review status") ∧
    (st.ticket.status = "admin_review" →
      approveTicket st admin_id d reason now = .ok
        { st with
            ticket := { st.ticket with status := d },
            approvals := st.approvals ++ [⟨admin_id, d, reason, now⟩],
            history := st.history ++
              [⟨if d = "approved" then "approved" else "rejected",
                some "admin_review", some d, some "status", reason⟩] }) := by
  have hdec : (d = "approved" || d = "rejected") = true := by
    rcases hd with h | h <;> simp [h]
  unfold approveTicket
  constructor
  · intro h; simp [hdec, h]
  · intro h; simp [hdec, h]

/-- Witness for C5's amended theorem: deciding on a pending ticket is the
scenario from the spec and fails with the invalid-state response. -/
theorem approve_decide_spec_witness :
    approveTicket (sampleState "pending") "admin1" "approved" none 7 =
      .error "Ticket is not in admin review status" :=
  (approve_decide_spec (sampleState "pending") "admin1" "approved" none 7
    (Or.inl rfl)).1 (by decide)

/-- Claim C1: the status-update handler changes the status only along edges of
`VALID_STATUS_TRANSITIONS`; any request whose target is not reachable from the
current status is answered with the invalid-transition response and leaves the
stored state unchanged. -/
theorem updateStatus_transition_table (st : TicketState) (s : String)
    (c : Option String) (hs : s ≠ "") :
    (isValidStatusTransition st.ticket.status s = false →
      updateTicketStatus st s c =
        .error ("Invalid status transition from " ++ st.ticket.status ++ " to " ++ s) ∧
      step st (.updateStatus s c) = st) ∧
    (∀ st', updateTicketStatus st s c = .ok st' →
      isValidStatusTransition st.ticket.status s = true ∧ st'.ticket.status = s) := by
  constructor
  · intro h
    have herr : updateTicketStatus st s c =
        .error ("Invalid status transition from " ++ st.ticket.status ++ " to " ++ s) := by
      unfold updateTicketStatus
      simp [hs, h]
    refine ⟨herr, ?_⟩
    simp [step, applyOp, herr]
  · intro st' h
    unfold updateTicketStatus at h
    rw [if_neg hs] at h
    by_cases hv : isValidStatusTransition st.ticket.status s = true
    · refine ⟨hv, ?_⟩
      rw [if_neg (by simp [hv])] at h
      cases h
      rfl
    · exfalso
      rw [if_pos (by simp [Bool.not_eq_true] at hv; simp [hv])] at h
      cases h

/-- Witness for C1: from `pending`, requesting `approved` is not an edge of
the table and is rejected; requesting `admin_review` is the table's edge and
succeeds with the new status stored. -/
theorem updateStatus_transition_table_witness :
    updateTicketStatus (sampleState "pending") "approved" none =
      .error ("Invalid status transition from pending to approved") ∧
    step (sampleState "pending") (.updateStatus "approved" none) = sampleState "pending" ∧
    isValidStatusTransition "pending" "admin_review" = true := by
  have h := (updateStatus_transition_table (sampleState "pending") "approved" none
    (by decide)).1 (by decide)
  have h2 := (updateStatus_transition_table (sampleState "pending") "admin_review" none
    (by decide)).2 _ rfl
  exact ⟨h.1, h.2, h2.1⟩

/-- Claim C4: the audit rows written by the status-change and assign handlers
record the post-update value as `old_value` (the handlers read the mutated
instance after `ticket.update(...)`): moving a pending ticket to admin_review
writes `old_value = "admin_review"`, and assigning an unassigned approved
ticket to `s1` writes `old_value = some "s1"`. -/
theorem history_old_value_equals_new_value :
    updateTicketStatus (sampleState "pending") "admin_review" none = .ok
      { ticket := { sampleTicket "pending" with status := "admin_review" }
      , assignments := []
      , approvals := []
      , history := [{ action := "status_changed"
                    , old_value := some "admin_review"
                    , new_value := some "admin_review"
                    , field_name := some "status"
                    , comment := none }] } ∧
    (sampleState "pending").ticket.status = "pending" ∧
    assignTicket (sampleState "approved") "m1" "s1" (some "support_staff") none = .ok
      { ticket := { sampleTicket "approved" with assigned_to := some "s1", status := "in_progress" }
      , assignments := [{ assigned_to := "s1"
                        , assigned_by := "m1"
                        , assignment_reason := none
                        , is_active := true }]
      , approvals := []
      , history := [{ action := "assigned"
                    , old_value := some "s1"
                    , new_value := some "s1"
                    , field_name := some "assigned_to"
                    , comment := none }] } ∧
    (sampleState "approved").ticket.assigned_to = none :=
  ⟨rfl, rfl, rfl, rfl⟩

/-- Deactivating every active record leaves no active record. -/
theorem filter_deactivateActive (rs : List AssignmentRec) :
    (deactivateActive rs).filter (fun r => r.is_active) = [] := by
  induction rs with
  | nil => rfl
  | cons r rs ih =>
    by_cases h : r.is_active = true <;>
      simp [deactivateActive, List.filter_cons, h] at ih ⊢ <;> exact ih

/-- `assignInv` only depends on the active records and `assigned_to`. -/
theorem assignInv_congr {st st' : TicketState}
    (h1 : activeAssignments st' = activeAssignments st)
    (h2 : st'.ticket.assigned_to = st.ticket.assigned_to)
    (h : assignInv st) : assignInv st' := by
  unfold assignInv at *
  rw [h1, h2]
  exact h

/-- An unassigned ticket satisfying the invariant has no active record. -/
theorem assignInv_none_active {st : TicketState} (h : assignInv st)
    (hn : st.ticket.assigned_to = none) : activeAssignments st = [] := by
  unfold assignInv at h
  rcases heq : activeAssignments st with _ | ⟨r, _ | ⟨r2, rest⟩⟩ <;> rw [heq] at h
  · have h' : st.ticket.assigned_to = some r.assigned_to := h
    rw [hn] at h'
    cases h'
  · exact h.elim

/-- Every handler preserves the single-active-assignment invariant. -/
theorem assignInv_step (st : TicketState) (op : TicketOp) (h : assignInv st) :
    assignInv (step st op) := by
  cases op with
  | updateStatus s c =>
    simp only [step, applyOp]
    unfold updateTicketStatus
    split_ifs with h1 h2
    · exact h
    · exact h
    · exact assignInv_congr rfl rfl h
  | approve a d r n =>
    simp only [step, applyOp]
    unfold approveTicket
    split_ifs with h1 h2 h3
    · exact h
    · exact h
    · exact assignInv_congr rfl rfl h
    · exact assignInv_congr rfl rfl h
  | assign actor a role notes =>
    simp only [step, applyOp]
    unfold assignTicket
    split_ifs with h1 h2 h3
    · exact h
    · exact h
    · exact h
    · unfold assignInv activeAssignments
      simp [List.filter_append, filter_deactivateActive]
  | selfAssign u role fac w notes =>
    simp only [step, applyOp]
    unfold selfAssignTicket
    split_ifs with h1 h2 h3 h4
    · exact h
    · exact h
    · exact h
    · exact h
    · have hn : st.ticket.assigned_to = none := by
        by_contra hc; exact h2 hc
      have hact : activeAssignments st = [] := assignInv_none_active h hn
      unfold assignInv activeAssignments
      unfold activeAssignments at hact
      simp [List.filter_append, hact]
  | reassign actor a role reason =>
    simp only [step, applyOp]
    unfold reassignTicket
    split_ifs with h1 h2 h3
    · exact h
    · exact h
    · exact h
    · unfold assignInv activeAssignments
      simp [List.filter_append, filter_deactivateActive]
  | unassign reason =>
    simp only [step, applyOp]
    unfold unassignTicket
    split_ifs with h1
    · exact h
    · unfold assignInv activeAssignments
      simp [filter_deactivateActive]
  | autoAssignTicket sid aid =>
    simp only [step, applyOp]
    unfold autoAssignTicketStep
    split_ifs with h1
    · exact h
    · have hn : st.ticket.assigned_to = none := by
        simp only [Bool.or_eq_true, not_or, Bool.not_eq_true] at h1
        have := h1.2
        simpa using this
      have hact : activeAssignments st = [] := assignInv_none_active h hn
      unfold assignInv activeAssignments
      unfold activeAssignments at hact
      simp [List.filter_append, hact]

/-- A freshly created ticket starts with empty ledgers, `pending` status and
no assignee. -/
theorem createTicket_ok {t d p f : String} {u : Int} {fe : Bool} {r : String}
    {now : Int} {st0 : TicketState}
    (h : createTicket t d p f u fe r now = .ok st0) :
    st0.assignments = [] ∧ st0.approvals = [] ∧
    st0.ticket.status = "pending" ∧ st0.ticket.assigned_to = none := by
  unfold createTicket at h
  split_ifs at h with h1 h2
  injection h with h3
  subst h3
  exact ⟨rfl, rfl, rfl, rfl⟩

/-- Unpacking of `assignInv` into the claim's three components. -/
theorem assignInv_elim {st : TicketState} (h : assignInv st) :
    (activeAssignments st).length ≤ 1 ∧
    (activeAssignments st = [] → st.ticket.assigned_to = none) ∧
    (∀ r, activeAssignments st = [r] → st.ticket.assigned_to = some r.assigned_to) := by
  unfold assignInv at h
  rcases heq : activeAssignments st with _ | ⟨r, _ | ⟨r2, rest⟩⟩ <;> rw [heq] at h
  · refine ⟨by simp, ?_, ?_⟩
    · intro _
      exact h
    · intro r hr
      simp at hr
  · refine ⟨by simp, ?_, ?_⟩
    · intro he
      simp at he
    · intro r' hr
      injection hr with h1 h2
      subst h1
      exact h
  · exact h.elim

/-- `assignInv` is preserved along any request sequence. -/
theorem assignInv_runOps (ops : List TicketOp) :
    ∀ st, assignInv st → assignInv (runOps st ops) := by
  induction ops with
  | nil => exact fun st h => h
  | cons op ops ih => exact fun st h => ih (step st op) (assignInv_step st op h)

/-- If a transition request passes `isValidStatusTransition`, then it is one
of the five edges of the table. -/
theorem isValidStatusTransition_cases {cur new : String}
    (h : isValidStatusTransition cur new = true) :
    (cur = "pending" ∧ new = "admin_review") ∨
    (cur = "admin_review" ∧ (new = "approved" ∨ new = "rejected")) ∨
    (cur = "approved" ∧ new = "in_progress") ∨
    (cur = "in_progress" ∧ new = "completed") ∨
    (cur = "completed" ∧ new = "closed") := by
  unfold isValidStatusTransition VALID_STATUS_TRANSITIONS at h
  by_cases c1 : cur = "pending"
  · subst c1; simp [List.lookup] at h
    exact Or.inl ⟨rfl, h⟩
  by_cases c2 : cur = "admin_review"
  · subst c2; simp [List.lookup, beq_eq_false_iff_ne.mpr c1] at h
    exact Or.inr (Or.inl ⟨rfl, h⟩)
  by_cases c3 : cur = "approved"
  · subst c3
    simp [List.lookup, beq_eq_false_iff_ne.mpr c1, beq_eq_false_iff_ne.mpr c2] at h
    exact Or.inr (Or.inr (Or.inl ⟨rfl, h⟩))
  by_cases c4 : cur = "rejected"
  · subst c4
    simp [List.lookup, beq_eq_false_iff_ne.mpr c1, beq_eq_false_iff_ne.mpr c2,
      beq_eq_false_iff_ne.mpr c3] at h
  by_cases c5 : cur = "in_progress"
  · subst c5
    simp [List.lookup, beq_eq_false_iff_ne.mpr c1, beq_eq_false_iff_ne.mpr c2,
      beq_eq_false_iff_ne.mpr c3, beq_eq_false_iff_ne.mpr c4] at h
    exact Or.inr (Or.inr (Or.inr (Or.inl ⟨rfl, h⟩)))
  by_cases c6 : cur = "completed"
  · subst c6
    simp [List.lookup, beq_eq_false_iff_ne.mpr c1, beq_eq_false_iff_ne.mpr c2,
      beq_eq_false_iff_ne.mpr c3, beq_eq_false_iff_ne.mpr c4, beq_eq_false_iff_ne.mpr c5] at h
    exact Or.inr (Or.inr (Or.inr (Or.inr ⟨rfl, h⟩)))
  by_cases c7 : cur = "closed"
  · subst c7
    simp [List.lookup, beq_eq_false_iff_ne.mpr c1, beq_eq_false_iff_ne.mpr c2,
      beq_eq_false_iff_ne.mpr c3, beq_eq_false_iff_ne.mpr c4, beq_eq_false_iff_ne.mpr c5,
      beq_eq_false_iff_ne.mpr c6] at h
  · simp [List.lookup, beq_eq_false_iff_ne.mpr c1, beq_eq_false_iff_ne.mpr c2,
      beq_eq_false_iff_ne.mpr c3, beq_eq_false_iff_ne.mpr c4, beq_eq_false_iff_ne.mpr c5,
      beq_eq_false_iff_ne.mpr c6, beq_eq_false_iff_ne.mpr c7] at h

/-- Every handler preserves the approval-ledger invariant. -/
theorem approvalInv_step (st : TicketState) (op : TicketOp) (h : approvalInv st) :
    approvalInv (step st op) := by
  obtain ⟨hlen, hempty⟩ := h
  cases op with
  | updateStatus s c =>
    simp only [step, applyOp]
    unfold updateTicketStatus
    split_ifs with h1 h2
    · exact ⟨hlen, hempty⟩
    · exact ⟨hlen, hempty⟩
    · have hv : isValidStatusTransition st.ticket.status s = true := by
        simpa using h2
      refine ⟨hlen, ?_⟩
      intro hs
      have hs' : s = "pending" ∨ s = "admin_review" := hs
      rcases isValidStatusTransition_cases hv with ⟨hc, hn⟩ | ⟨hc, hn⟩ | ⟨hc, hn⟩ | ⟨hc, hn⟩ | ⟨hc, hn⟩
      · exact hempty (Or.inl hc)
      · rcases hn with hn | hn <;> subst hn <;>
          rcases hs' with hs' | hs' <;> exact absurd hs' (by decide)
      · subst hn; rcases hs' with hs' | hs' <;> exact absurd hs' (by decide)
      · subst hn; rcases hs' with hs' | hs' <;> exact absurd hs' (by decide)
      · subst hn; rcases hs' with hs' | hs' <;> exact absurd hs' (by decide)
  | approve a d r n =>
    simp only [step, applyOp]
    unfold approveTicket
    split_ifs with h1 h2 h3
    · exact ⟨hlen, hempty⟩
    · exact ⟨hlen, hempty⟩
    · have hstat : st.ticket.status = "admin_review" := not_not.mp h2
      have hap : st.approvals = [] := hempty (Or.inr hstat)
      refine ⟨by simp [hap], ?_⟩
      subst h3
      intro hs
      have hs' : ("approved" : String) = "pending" ∨ ("approved" : String) = "admin_review" := hs
      rcases hs' with hs' | hs' <;> exact absurd hs' (by decide)
    · have hstat : st.ticket.status = "admin_review" := not_not.mp h2
      have hap : st.approvals = [] := hempty (Or.inr hstat)
      have hd : d = "approved" ∨ d = "rejected" :=
        or_iff_not_imp_left.mpr (by simpa using h1)
      have hr : d = "rejected" := hd.resolve_left h3
      refine ⟨by simp [hap], ?_⟩
      subst hr
      intro hs
      have hs' : ("rejected" : String) = "pending" ∨ ("rejected" : String) = "admin_review" := hs
      rcases hs' with hs' | hs' <;> exact absurd hs' (by decide)
  | assign actor a role notes =>
    simp only [step, applyOp]
    unfold assignTicket
    split_ifs with h1 h2 h3
    · exact ⟨hlen, hempty⟩
    · exact ⟨hlen, hempty⟩
    · exact ⟨hlen, hempty⟩
    · refine ⟨hlen, ?_⟩
      intro hs
      have hs' : ("in_progress" : String) = "pending" ∨ ("in_progress" : String) = "admin_review" := hs
      rcases hs' with hs' | hs' <;> exact absurd hs' (by decide)
  | selfAssign u role fac w notes =>
    simp only [step, applyOp]
    unfold selfAssignTicket
    split_ifs with h1 h2 h3 h4
    · exact ⟨hlen, hempty⟩
    · exact ⟨hlen, hempty⟩
    · exact ⟨hlen, hempty⟩
    · exact ⟨hlen, hempty⟩
    · refine ⟨hlen, ?_⟩
      intro hs
      have hs' : ("in_progress" : String) = "pending" ∨ ("in_progress" : String) = "admin_review" := hs
      rcases hs' with hs' | hs' <;> exact absurd hs' (by decide)
  | reassign actor a role reason =>
    simp only [step, applyOp]
    unfold reassignTicket
    split_ifs with h1 h2 h3
    · exact ⟨hlen, hempty⟩
    · exact ⟨hlen, hempty⟩
    · exact ⟨hlen, hempty⟩
    · exact ⟨hlen, fun hs => hempty hs⟩
  | unassign reason =>
    simp only [step, applyOp]
    unfold unassignTicket
    split_ifs with h1
    · exact ⟨hlen, hempty⟩
    · refine ⟨hlen, ?_⟩
      intro hs
      have hs' : ("approved" : String) = "pending" ∨ ("approved" : String) = "admin_review" := hs
      rcases hs' with hs' | hs' <;> exact absurd hs' (by decide)
  | autoAssignTicket sid aid =>
    simp only [step, applyOp]
    unfold autoAssignTicketStep
    split_ifs with h1
    · exact ⟨hlen, hempty⟩
    · refine ⟨hlen, ?_⟩
      intro hs
      have hs' : ("in_progress" : String) = "pending" ∨ ("in_progress" : String) = "admin_review" := hs
      rcases hs' with hs' | hs' <;> exact absurd hs' (by decide)

/-- `approvalInv` is preserved along any request sequence. -/
theorem approvalInv_runOps (ops : List TicketOp) :
    ∀ st, approvalInv st → approvalInv (runOps st ops) := by
  induction ops with
  | nil => exact fun st h => h
  | cons op ops ih => exact fun st h => ih (step st op) (approvalInv_step st op h)

/-- Claim C2: starting from a freshly created ticket, any sequence of
status/approval/assignment requests leaves at most one active assignment
record, with `ticket.assigned_to` equal to the active assignee (null when
there is none). -/
theorem ticket_assigned_matches_active_record
    (title description priority factory_id : String) (urgency : Int)
    (factoryExists : Bool) (requester : String) (now : Int) (st0 : TicketState)
    (hcreate : createTicket title description priority factory_id urgency
      factoryExists requester now = .ok st0) (ops : List TicketOp) :
    (activeAssignments (runOps st0 ops)).length ≤ 1 ∧
    (activeAssignments (runOps st0 ops) = [] → (runOps st0 ops).ticket.assigned_to = none) ∧
    (∀ r, activeAssignments (runOps st0 ops) = [r] →
      (runOps st0 ops).ticket.assigned_to = some r.assigned_to) := by
  have h0 : assignInv st0 := by
    obtain ⟨ha, _, _, hn⟩ := createTicket_ok hcreate
    unfold assignInv activeAssignments
    rw [ha]
    exact hn
  exact assignInv_elim (assignInv_runOps ops st0 h0)

/-- Witness for C2: a create/review/approve/assign/reassign run, checked at
the created state. -/
theorem ticket_assigned_matches_active_record_witness :
    (activeAssignments (runOps createdSample
      [TicketOp.updateStatus "admin_review" none,
       TicketOp.approve "a1" "approved" none 5,
       TicketOp.assign "m1" "s1" (some "support_staff") none,
       TicketOp.reassign "m1" "s2" (some "support_staff") (some "rebalance")])).length ≤ 1 :=
  (ticket_assigned_matches_active_record "Press" "desc" "critical" "F1" 3 true "u1" 0
    createdSample rfl _).1

/-- Claim C7 counterexample: moving a pending ticket into admin_review leaves
the approval ledger empty — no `pending` ApprovalRecord is created. -/
theorem admin_review_creates_no_pending_approval :
    updateTicketStatus (sampleState "pending") "admin_review" none = .ok
      { ticket := { sampleTicket "pending" with status := "admin_review" }
      , assignments := []
      , approvals := []
      , history := [{ action := "status_changed"
                    , old_value := some "admin_review"
                    , new_value := some "admin_review"
                    , field_name := some "status"
                    , comment := none }] } :=
  rfl

/-- Claim C7 (amended): entering admin_review creates no ApprovalRecord; the
decision handler appends a fresh record; still, over any request sequence from
creation the ticket accumulates at most one ApprovalRecord, because a decision
requires `admin_review`, which is entered at most once. -/
theorem approval_record_appended_once
    (title description priority factory_id : String) (urgency : Int)
    (factoryExists : Bool) (requester : String) (now : Int) (st0 : TicketState)
    (hcreate : createTicket title description priority factory_id urgency
      factoryExists requester now = .ok st0) (ops : List TicketOp) :
    (runOps st0 ops).approvals.length ≤ 1 ∧
    (∀ st s c st', updateTicketStatus st s c = .ok st' → st'.approvals = st.approvals) := by
  constructor
  · have h0 : approvalInv st0 := by
      obtain ⟨_, hap, _, _⟩ := createTicket_ok hcreate
      exact ⟨by rw [hap]; simp, fun _ => hap⟩
    exact (approvalInv_runOps ops st0 h0).1
  · intro st s c st' h
    unfold updateTicketStatus at h
    split_ifs at h with h1 h2
    injection h with h3
    subst h3
    rfl

/-- Witness for C7's amended theorem: review plus decision yields exactly one
approval row; the bound is checked at the created state. -/
theorem approval_record_appended_once_witness :
    (runOps createdSample
      [TicketOp.updateStatus "admin_review" none,
       TicketOp.approve "a1" "approved" none 5]).approvals.length ≤ 1 :=
  (approval_record_appended_once "Press" "desc" "critical" "F1" 3 true "u1" 0
    createdSample rfl _).1

/-! ## Round-robin allocation analysis

`autoAssignGo` only reads staff ids and the list length: the counter bumps
never alter either, so the allocation sequence is plain round-robin over the
initially sorted staff list.  `rrAlloc`/`rrCount`/`distTo` are proof devices
capturing that sequence and its per-member counts. -/

/-- Counter bumps do not change the staff ids. -/
theorem bumpAt_map_fst (sw : List (String × Nat)) :
    ∀ j, (bumpAt sw j).map Prod.fst = sw.map Prod.fst := by
  induction sw with
  | nil => intro j; rfl
  | cons p rest ih =>
    intro j
    cases j with
    | zero => rfl
    | succ j => simp [bumpAt, ih j]

/-- Counter bumps do not change the staff count. -/
theorem bumpAt_length (sw : List (String × Nat)) :
    ∀ j, (bumpAt sw j).length = sw.length := by
  induction sw with
  | nil => intro j; rfl
  | cons p rest ih =>
    intro j
    cases j with
    | zero => rfl
    | succ j => simp [bumpAt, ih j]

/-- The allocation loop is round-robin over the staff ids. -/
theorem autoAssignGo_eq_rrAlloc :
    ∀ (ts : List Ticket) (sw : List (String × Nat)) (i : Nat),
      autoAssignGo ts sw i = rrAlloc (sw.map Prod.fst) ts i := by
  intro ts
  induction ts with
  | nil => intro sw i; rfl
  | cons t ts ih =>
    intro sw i
    unfold autoAssignGo rrAlloc
    rw [List.length_map, List.getElem?_map]
    cases hp : sw[i % sw.length]? with
    | none => rfl
    | some p =>
      rw [ih (bumpAt sw (i % sw.length)) (i + 1), bumpAt_map_fst]
      rfl

/-- `countAlloc` over a round-robin allocation is `rrCount`. -/
theorem countAlloc_rrAlloc (ids : List String) (sid : String) (hne : ids ≠ []) :
    ∀ (ts : List Ticket) (i : Nat),
      countAlloc sid (rrAlloc ids ts i) = rrCount ids sid ts.length i := by
  have hL : 0 < ids.length := List.length_pos.mpr hne
  intro ts
  induction ts with
  | nil => intro i; rfl
  | cons t ts ih =>
    intro i
    have hlt : i % ids.length < ids.length := Nat.mod_lt _ hL
    unfold rrAlloc
    rw [List.getElem?_eq_getElem hlt, List.length_cons]
    show countAlloc sid ((t, ids[i % ids.length]) :: rrAlloc ids ts (i + 1)) =
      (if ids[i % ids.length]? = some sid then 1 else 0) + rrCount ids sid ts.length (i + 1)
    rw [List.getElem?_eq_getElem hlt]
    unfold countAlloc
    rw [List.filter_cons]
    by_cases hc : ids[i % ids.length] = sid
    · rw [if_pos (by simp [hc]), if_pos (congrArg some hc), List.length_cons]
      have hih := ih (i + 1)
      unfold countAlloc at hih
      omega
    · rw [if_neg (by simp [hc]), if_neg (by simp [hc])]
      have hih := ih (i + 1)
      unfold countAlloc at hih
      omega

theorem distTo_lt {j a L : Nat} (hj : j < L) (ha : a < L) : distTo j a L < L := by
  unfold distTo; split_ifs <;> omega

theorem distTo_eq_zero_iff {j a L : Nat} (_hj : j < L) (ha : a < L) :
    (distTo j a L = 0) ↔ a = j := by
  unfold distTo; split_ifs <;> omega

theorem distTo_zero {j L : Nat} : distTo j 0 L = j := by
  unfold distTo; simp

/-- How the distance to the next visit evolves when the robin advances one
slot. -/
theorem distTo_succ {j L : Nat} (i : Nat) (hj : j < L) :
    distTo j ((i + 1) % L) L =
      if distTo j (i % L) L = 0 then L - 1 else distTo j (i % L) L - 1 := by
  have hL : 0 < L := Nat.lt_of_le_of_lt (Nat.zero_le j) hj
  have ha : i % L < L := Nat.mod_lt _ hL
  have hstep : (i + 1) % L = (i % L + 1) % L := by rw [Nat.mod_add_mod]
  by_cases hedge : i % L + 1 = L
  · rw [hstep, hedge, Nat.mod_self]
    unfold distTo
    split_ifs <;> omega
  · have hlt : (i % L + 1) % L = i % L + 1 := Nat.mod_eq_of_lt (by omega)
    rw [hstep, hlt]
    unfold distTo
    split_ifs <;> omega

/-- For a duplicate-free id list, the slot reading `sid` is exactly the slot
at `sid`'s index. -/
theorem getElem?_eq_some_iff_indexOf {ids : List String} {sid : String}
    (nd : ids.Nodup) (hmem : sid ∈ ids) {m : Nat} (hm : m < ids.length) :
    (ids[m]? = some sid) ↔ m = List.indexOf sid ids := by
  constructor
  · intro h
    obtain ⟨hm', he⟩ := List.getElem?_eq_some.mp h
    have := List.indexOf_getElem nd m hm'
    rw [he] at this
    exact this.symm
  · intro h
    subst h
    have hj : List.indexOf sid ids < ids.length := List.indexOf_lt_length.mpr hmem
    rw [List.getElem?_eq_getElem hj]
    exact congrArg some (List.getElem_indexOf hj)

/-- Closed form of the round-robin hit count. -/
theorem rrCount_eq (ids : List String) (sid : String) (nd : ids.Nodup)
    (hmem : sid ∈ ids) :
    ∀ (N i : Nat), rrCount ids sid N i =
      (N + ids.length - 1 -
        distTo (List.indexOf sid ids) (i % ids.length) ids.length) / ids.length := by
  have hL : 0 < ids.length := List.length_pos.mpr (List.ne_nil_of_mem hmem)
  have hj : List.indexOf sid ids < ids.length := List.indexOf_lt_length.mpr hmem
  intro N
  induction N with
  | zero =>
    intro i
    have hd : distTo (List.indexOf sid ids) (i % ids.length) ids.length < ids.length :=
      distTo_lt hj (Nat.mod_lt _ hL)
    rw [Nat.div_eq_of_lt (by omega)]
    rfl
  | succ N ih =>
    intro i
    have ha : i % ids.length < ids.length := Nat.mod_lt _ hL
    have hiff := getElem?_eq_some_iff_indexOf nd hmem ha
    have hstep := distTo_succ (L := ids.length) (j := List.indexOf sid ids) i hj
    unfold rrCount
    rw [ih (i + 1), hstep]
    by_cases hc : i % ids.length = List.indexOf sid ids
    · rw [if_pos (hiff.mpr hc),
        if_pos ((distTo_eq_zero_iff hj ha).mpr hc),
        (distTo_eq_zero_iff hj ha).mpr hc]
      rw [show N + ids.length - 1 - (ids.length - 1) = N by omega,
        show N + 1 + ids.length - 1 - 0 = N + ids.length by omega,
        Nat.add_div_right _ hL]
      exact Nat.add_comm 1 _
    · have hd0 : distTo (List.indexOf sid ids) (i % ids.length) ids.length ≠ 0 :=
        fun h => hc ((distTo_eq_zero_iff hj ha).mp h)
      have hdlt : distTo (List.indexOf sid ids) (i % ids.length) ids.length < ids.length :=
        distTo_lt hj ha
      rw [if_neg (fun h => hc (hiff.mp h)), if_neg hd0]
      rw [show N + (ids.length) - 1 -
            (distTo (List.indexOf sid ids) (i % ids.length) ids.length - 1)
          = N + 1 + ids.length - 1 -
            distTo (List.indexOf sid ids) (i % ids.length) ids.length by omega]
      exact Nat.zero_add _

/-- With at least one staff member, the loop allocates every ticket of the
batch. -/
theorem autoAssignGo_length :
    ∀ (ts : List Ticket) (sw : List (String × Nat)), sw ≠ [] → ∀ i,
      (autoAssignGo ts sw i).length = ts.length := by
  intro ts
  induction ts with
  | nil => intro sw hne i; rfl
  | cons t ts ih =>
    intro sw hne i
    have hL : 0 < sw.length := List.length_pos.mpr hne
    have hlt : i % sw.length < sw.length := Nat.mod_lt _ hL
    have hb : bumpAt sw (i % sw.length) ≠ [] := by
      intro hnil
      have hlen := bumpAt_length sw (i % sw.length)
      rw [hnil] at hlen
      simp at hlen
      omega
    unfold autoAssignGo
    rw [List.getElem?_eq_getElem hlt]
    show ((t, sw[i % sw.length].1) ::
      autoAssignGo ts (bumpAt sw (i % sw.length)) (i + 1)).length = ts.length + 1
    rw [List.length_cons, ih _ hb (i + 1)]

/-- With a single staff member, every ticket of the batch goes to that member,
whatever the load counter says. -/
theorem autoAssignGo_singleton (sid : String) :
    ∀ (ts : List Ticket) (c i : Nat),
      autoAssignGo ts [(sid, c)] i = ts.map (fun t => (t, sid)) := by
  intro ts
  induction ts with
  | nil => intro c i; rfl
  | cons t ts ih =>
    intro c i
    unfold autoAssignGo
    rw [show (i % ([(sid, c)] : List (String × Nat)).length) = 0 from Nat.mod_one i]
    show (t, sid) :: autoAssignGo ts (bumpAt [(sid, c)] 0) (i + 1) =
      (t, sid) :: ts.map (fun t => (t, sid))
    rw [show bumpAt [(sid, c)] 0 = [(sid, c + 1)] from rfl, ih (c + 1) (i + 1)]

/-- Claim C8: in any accepted auto-assign batch over distinct staff, no staff
member receives more than ceil(N/M) more tickets than any other, where N is
the batch size and M the staff count (the within-batch spread is in fact at
most 1). -/
theorem autoAssign_balanced (tickets : List Ticket) (staff : List (String × Nat))
    (factory_id : String) (max_assignments : Nat) (allocs : List (Ticket × String))
    (hok : autoAssignTickets tickets staff factory_id max_assignments = .ok allocs)
    (nd : (staff.map Prod.fst).Nodup) (s1 s2 : String)
    (h1 : s1 ∈ staff.map Prod.fst) (h2 : s2 ∈ staff.map Prod.fst) :
    countAlloc s1 allocs ≤ countAlloc s2 allocs +
      (((tickets.filter (fun t => t.factory_id = factory_id &&
          t.status = "approved" && t.assigned_to = none)).take max_assignments).length +
        staff.length - 1) / staff.length := by
  simp only [autoAssignTickets] at hok
  split_ifs at hok with hf0 he hs
  · injection hok with hok
    subst hok
    simp [countAlloc]
  · injection hok with hok
    subst hok
    have perm : List.Perm (sortByLoad staff) staff := List.perm_insertionSort _ staff
    have permIds : List.Perm ((sortByLoad staff).map Prod.fst) (staff.map Prod.fst) :=
      perm.map _
    have ndIds : ((sortByLoad staff).map Prod.fst).Nodup := permIds.nodup_iff.mpr nd
    have hm1 : s1 ∈ (sortByLoad staff).map Prod.fst := permIds.mem_iff.mpr h1
    have hm2 : s2 ∈ (sortByLoad staff).map Prod.fst := permIds.mem_iff.mpr h2
    have hsne : staff ≠ [] := fun hnil => hs (by rw [hnil]; rfl)
    have hLpos : 0 < staff.length := List.length_pos.mpr hsne
    have hLen : ((sortByLoad staff).map Prod.fst).length = staff.length := by
      rw [List.length_map]
      exact perm.length_eq
    have hbne : ((tickets.filter (fun t => t.factory_id = factory_id &&
        t.status = "approved" && t.assigned_to = none)).take max_assignments) ≠ [] :=
      fun hnil => he (by rw [hnil]; rfl)
    have hNpos : 0 < ((tickets.filter (fun t => t.factory_id = factory_id &&
        t.status = "approved" && t.assigned_to = none)).take max_assignments).length :=
      List.length_pos.mpr hbne
    have hneIds : (sortByLoad staff).map Prod.fst ≠ [] :=
      List.length_pos.mp (by omega)
    rw [autoAssignGo_eq_rrAlloc, countAlloc_rrAlloc _ _ hneIds,
      countAlloc_rrAlloc _ _ hneIds, rrCount_eq _ _ ndIds hm1, rrCount_eq _ _ ndIds hm2,
      Nat.zero_mod, distTo_zero, distTo_zero]
    have hj1 : List.indexOf s1 ((sortByLoad staff).map Prod.fst) <
        ((sortByLoad staff).map Prod.fst).length := List.indexOf_lt_length.mpr hm1
    have hj2 : List.indexOf s2 ((sortByLoad staff).map Prod.fst) <
        ((sortByLoad staff).map Prod.fst).length := List.indexOf_lt_length.mpr hm2
    rw [hLen] at hj1 hj2 ⊢
    set N := ((tickets.filter (fun t => t.factory_id = factory_id &&
        t.status = "approved" && t.assigned_to = none)).take max_assignments).length
    set L := staff.length
    set j1 := List.indexOf s1 ((sortByLoad staff).map Prod.fst)
    set j2 := List.indexOf s2 ((sortByLoad staff).map Prod.fst)
    have step1 : (N + L - 1 - j1) / L ≤ ((N + L - 1 - j2) + L) / L :=
      Nat.div_le_div_right (by omega)
    have step2 : ((N + L - 1 - j2) + L) / L = (N + L - 1 - j2) / L + 1 :=
      Nat.add_div_right _ hLpos
    have step3 : 1 ≤ (N + L - 1) / L := by
      rw [Nat.le_div_iff_mul_le hLpos]
      omega
    omega

/-- Witness for C8 at a concrete batch: one approved unassigned ticket, one
staff member. -/
theorem autoAssign_balanced_witness :
    countAlloc "s1" [(sampleTicket "approved", "s1")] ≤
      countAlloc "s1" [(sampleTicket "approved", "s1")] +
      ((([sampleTicket "approved"].filter (fun t => t.factory_id = "F1" &&
          t.status = "approved" && t.assigned_to = none)).take 5).length +
        ([(("s1" : String), (0 : Nat))] : List (String × Nat)).length - 1) /
        ([(("s1" : String), (0 : Nat))] : List (String × Nat)).length :=
  autoAssign_balanced [sampleTicket "approved"] [("s1", 0)] "F1" 5
    [(sampleTicket "approved", "s1")] rfl (by decide) "s1" "s1" (by decide) (by decide)

/-- Claim C10: the auto-assign loop applies no per-staff capacity bound — every
selected ticket is allocated; with a single eligible staff member already at
the workload cap of 10 all batch tickets still go to that member; while
self-assign at the cap is rejected with the workload-limit response. -/
theorem autoAssign_ignores_workload_cap
    (tickets : List Ticket) (staff : List (String × Nat)) (factory_id : String)
    (max_assignments : Nat) (allocs : List (Ticket × String)) (sid : String)
    (st : TicketState) (user_id userFactory : String) (w : Nat) (notes : Option String)
    (hok : autoAssignTickets tickets staff factory_id max_assignments = .ok allocs)
    (hf : factory_id ≠ "")
    (hstatus : st.ticket.status = "approved") (hun : st.ticket.assigned_to = none)
    (hfac : st.ticket.factory_id = userFactory) (hw : maxWorkload ≤ w) :
    allocs.length = ((tickets.filter (fun t => t.factory_id = factory_id &&
        t.status = "approved" && t.assigned_to = none)).take max_assignments).length ∧
    autoAssignTickets tickets [(sid, 10)] factory_id max_assignments =
      .ok (((tickets.filter (fun t => t.factory_id = factory_id &&
        t.status = "approved" && t.assigned_to = none)).take max_assignments).map
          (fun t => (t, sid))) ∧
    selfAssignTicket st user_id "support_staff" userFactory w notes =
      .error "You have reached the maximum workload limit (10 active tickets)" := by
  refine ⟨?_, ?_, ?_⟩
  · simp only [autoAssignTickets] at hok
    split_ifs at hok with hf0 he hs
    · injection hok with hok
      subst hok
      rw [List.isEmpty_iff.mp he]
      rfl
    · injection hok with hok
      subst hok
      have hsne : staff ≠ [] := fun hnil => hs (by rw [hnil]; rfl)
      have hpos : 0 < staff.length := List.length_pos.mpr hsne
      have hperm : List.Perm (sortByLoad staff) staff := List.perm_insertionSort _ staff
      have hns : sortByLoad staff ≠ [] := by
        apply List.length_pos.mp
        rw [hperm.length_eq]
        exact hpos
      exact autoAssignGo_length _ _ hns 0
  · simp only [autoAssignTickets]
    rw [if_neg hf]
    split_ifs with hb hs2
    · rw [List.isEmpty_iff.mp hb]
      rfl
    · simp at hs2
    · rw [show sortByLoad [(sid, 10)] = [(sid, 10)] from rfl,
        autoAssignGo_singleton sid _ 10 0]
  · unfold selfAssignTicket
    rw [if_neg (by simp [hstatus]), if_neg (by simp [hun]),
      if_neg (by simp [hfac]), if_pos hw]

/-- Witness for C10: one approved unassigned ticket, one staff member already
holding 10 active tickets. -/
theorem autoAssign_ignores_workload_cap_witness :
    selfAssignTicket (sampleState "approved") "s1" "support_staff" "F1" 10 none =
      .error "You have reached the maximum workload limit (10 active tickets)" :=
  (autoAssign_ignores_workload_cap [sampleTicket "approved"] [("s1", 10)] "F1" 5
    [(sampleTicket "approved", "s1")] "s1" (sampleState "approved") "s1" "F1" 10 none
    rfl (by decide) rfl rfl rfl (by decide)).2.2

end HIT
